import Mathlib

/-!
Verification of the agno OpenRouter adapter (`libs/agno/agno/models/openrouter/openrouter.py`)
and of the multi-part content extraction exercised by
`libs/agno/tests/unit/models/openai/test_openai_chat_multipart_content.py`.

Python dictionaries are embedded as insertion-ordered association lists over a
JSON-like value type `Val`.  `dget`/`dset` mirror `d[k]` lookup and `d[k] = v`
assignment (update-in-place for an existing key, append otherwise), `pyGet`
mirrors `d.get(k)` (missing keys read as `None`), `pyUpdate` mirrors
`d.update(extra)`, and `truthy` mirrors Python truthiness of a value.
-/

set_option autoImplicit false

namespace Agno

/-- A JSON-like runtime value, standing in for Python values flowing through
the adapter: `None`, strings, integers, lists and dicts. -/
inductive Val where
  | vnull : Val
  | vstr : String → Val
  | vint : Int → Val
  | vlist : List Val → Val
  | vdict : List (String × Val) → Val

/-- A Python dict: an insertion-ordered association list. -/
abbrev Dict := List (String × Val)

/-- `d[k]` lookup returning `none` when the key is absent (first match). -/
def dget (d : Dict) (k : String) : Option Val :=
  match d with
  | [] => none
  | (k₁, v) :: rest => if k₁ = k then some v else dget rest k

/-- `d[k] = v`: replace the value at an existing key in place, else append. -/
def dset (d : Dict) (k : String) (v : Val) : Dict :=
  match d with
  | [] => [(k, v)]
  | (k₁, v₁) :: rest => if k₁ = k then (k, v) :: rest else (k₁, v₁) :: dset rest k v

/-- `d.get(k)`: a missing key reads as `None`. -/
def pyGet (d : Dict) (k : String) : Val :=
  match dget d k with
  | some v => v
  | none => Val.vnull

/-- `d.update(extra)`: assign every entry of `extra` into `d`, in order. -/
def pyUpdate (d extra : Dict) : Dict :=
  extra.foldl (fun acc kv => dset acc kv.1 kv.2) d

/-- `v is None`. -/
def Val.isNull : Val → Bool
  | Val.vnull => true
  | _ => false

/-- Python truthiness of a value (`bool(v)`). -/
def truthy : Val → Bool
  | Val.vnull => false
  | Val.vstr s => !s.isEmpty
  | Val.vint n => n ≠ 0
  | Val.vlist xs => !xs.isEmpty
  | Val.vdict es => !es.isEmpty

/-!
Embedding of `OpenRouter` (`libs/agno/agno/models/openrouter/openrouter.py`).

Pydantic objects reaching the metadata helpers are embedded by the observations
the code makes of them: `model_dump()` and `dict(...)` either succeed with a
dict or raise (an `Option Dict`), `model_extra` is either a dict or something
else/absent (an `Option Dict`, where `none` covers the non-dict case filtered
out by `_get_model_extra`), and plain attributes read through
`getattr(x, field, None)` are a `Val` with `vnull` standing for both `None` and
an absent attribute.
-/

/-- `OpenRouter._get_model_extra`: the `model_extra` dict of a pydantic object,
or `{}` when it is absent or not a dict. -/
def get_model_extra (model_extra : Option Dict) : Dict :=
  match model_extra with
  | some d => d
  | none => []

/-- The raw `usage` substructure as observed by `_get_usage_metadata`. -/
structure RawUsage where
  dump : Option Dict
  asDict : Option Dict
  model_extra : Option Dict

/-- A raw `choice` as observed by `_get_choice_metadata` and
`_apply_openrouter_metadata`. -/
structure RawChoice where
  dump : Option Dict
  asDict : Option Dict
  model_extra : Option Dict
  finish_reason : Val

/-- A raw `ChatCompletion`/`ChatCompletionChunk` as observed by
`_apply_openrouter_metadata`. -/
structure RawResponse where
  model : Val
  created : Val
  object : Val
  model_extra : Option Dict
  usage : Option RawUsage
  choices : List RawChoice

/-- The `cost`-bearing usage substructure of a `ModelResponse`. -/
structure UsageMetrics where
  cost : Val

/-- The slice of `ModelResponse` that `_apply_openrouter_metadata` touches. -/
structure ModelResponse where
  provider_data : Option Dict
  response_usage : Option UsageMetrics

/-- `OpenRouter._get_usage_metadata`: `usage.model_dump()`, falling back to
`dict(usage)`, falling back to `{}`; then `update` with the usage extra bag
when that bag is non-empty. -/
def get_usage_metadata (usage : Option RawUsage) : Dict :=
  match usage with
  | none => []
  | some u =>
    let usage_data :=
      match u.dump with
      | some d => d
      | none =>
        match u.asDict with
        | some d => d
        | none => []
    let usage_extra := get_model_extra u.model_extra
    if usage_extra.isEmpty then usage_data else pyUpdate usage_data usage_extra

/-- `OpenRouter._get_choice_metadata`: `choice.model_dump()`, falling back to
`dict(choice)`, falling back to `{}`; then `update` with the choice extra bag
when that bag is non-empty. -/
def get_choice_metadata (choice : RawChoice) : Dict :=
  let choice_data :=
    match choice.dump with
    | some d => d
    | none =>
      match choice.asDict with
      | some d => d
      | none => []
  let choice_extra := get_model_extra choice.model_extra
  if choice_extra.isEmpty then choice_data else pyUpdate choice_data choice_extra

/-- The `model`/`created`/`object`/`provider` block of
`_apply_openrouter_metadata`: each attribute is copied when truthy
(`if getattr(response, f, None):`), and `provider` is copied when the key is
present in the response extra bag. -/
def set_basic_fields (pd : Dict) (r : RawResponse) : Dict :=
  let pd := if truthy r.model then dset pd "model" r.model else pd
  let pd := if truthy r.created then dset pd "created" r.created else pd
  let pd := if truthy r.object then dset pd "object" r.object else pd
  match dget (get_model_extra r.model_extra) "provider" with
  | some v => dset pd "provider" v
  | none => pd

/-- The cost side effect of the usage block: when the merged usage data is
non-empty, the response carries a usage substructure and
`usage_data.get("total_cost")` is not `None`, overwrite `cost` with it. -/
def resolve_cost (response_usage : Option UsageMetrics) (usage_data : Dict) :
    Option UsageMetrics :=
  if usage_data.isEmpty then response_usage
  else
    match response_usage with
    | none => none
    | some u =>
      let total_cost := pyGet usage_data "total_cost"
      if total_cost.isNull then some u else some { u with cost := total_cost }

/-- The choices block of `_apply_openrouter_metadata`: runs only when
`include_choices` holds and the choices list is non-empty (truthy); attaches
the coerced choices, then `finish_reason` (typed field `or` the extra bag) and
`native_finish_reason` (extra bag only), each only when not `None`. -/
def set_choice_fields (pd : Dict) (r : RawResponse) (include_choices : Bool) : Dict :=
  match r.choices with
  | [] => pd
  | c₀ :: rest =>
    if include_choices then
      let pd := dset pd "choices"
        (Val.vlist ((c₀ :: rest).map (fun c => Val.vdict (get_choice_metadata c))))
      let choice_extra := get_model_extra c₀.model_extra
      let finish_reason :=
        if truthy c₀.finish_reason then c₀.finish_reason
        else pyGet choice_extra "finish_reason"
      let native_finish_reason := pyGet choice_extra "native_finish_reason"
      let pd :=
        if finish_reason.isNull then pd else dset pd "finish_reason" finish_reason
      if native_finish_reason.isNull then pd
      else dset pd "native_finish_reason" native_finish_reason
    else pd

/-- `OpenRouter._apply_openrouter_metadata`, as a functional transform of the
touched `ModelResponse` slice. -/
def apply_openrouter_metadata (mr : ModelResponse) (r : RawResponse)
    (include_choices : Bool) : ModelResponse :=
  let pd := match mr.provider_data with
    | some d => d
    | none => []
  let pd := set_basic_fields pd r
  let usage_data := get_usage_metadata r.usage
  let pd := if usage_data.isEmpty then pd else dset pd "usage" (Val.vdict usage_data)
  let pd := set_choice_fields pd r include_choices
  { provider_data := some pd
    response_usage := resolve_cost mr.response_usage usage_data }

/-- `OpenRouter.get_request_params`: when `self.models` is truthy, write it
into `extra_body.models`, creating `extra_body` when absent or falsy.  A
present, truthy, non-dict `extra_body` would make the item assignment raise a
`TypeError` in Python; that outcome is `none`. -/
def get_request_params (models : Option (List String)) (request_params : Dict) :
    Option Dict :=
  match models with
  | none => some request_params
  | some ms =>
    if ms.isEmpty then some request_params
    else
      let extra_body :=
        match dget request_params "extra_body" with
        | some v => if truthy v then v else Val.vdict []
        | none => Val.vdict []
      match extra_body with
      | Val.vdict entries =>
        some (dset request_params "extra_body"
          (Val.vdict (dset entries "models" (Val.vlist (ms.map Val.vstr)))))
      | _ => none

/-- The entries of a pre-existing dict-valued `extra_body` in the base request
parameters (`[]` when `extra_body` is absent or not a dict). -/
def extra_body_entries (request_params : Dict) : Dict :=
  match dget request_params "extra_body" with
  | some (Val.vdict es) => es
  | _ => []

/-- Well-typedness of the base parameters fed to `get_request_params`: a
present, truthy `extra_body` is a dict (as produced by the parent class), so
the Python item assignment cannot raise. -/
def extra_body_ok (request_params : Dict) : Bool :=
  match dget request_params "extra_body" with
  | none => true
  | some (Val.vdict _) => true
  | some v => !truthy v

/-!
Multi-part content extraction of the sibling `OpenAIChat` adapter.  The
implementation lives outside this fragment; only its unit tests
(`test_openai_chat_multipart_content.py`) are present, so the definitions below
are modelled from the spec (§4.2 and §3 of the specification) and checked
against those tests.
-/

/-- Modelled from the spec: the sextet value of one base64 alphabet character,
or `none` for a character outside the alphabet. -/
def base64Val (c : Char) : Option Nat :=
  if 'A' ≤ c ∧ c ≤ 'Z' then some (c.toNat - 65)
  else if 'a' ≤ c ∧ c ≤ 'z' then some (c.toNat - 97 + 26)
  else if '0' ≤ c ∧ c ≤ '9' then some (c.toNat - 48 + 52)
  else if c = '+' then some 62
  else if c = '/' then some 63
  else none

/-- Modelled from the spec: strict base64 decoding of a character list into
bytes, quad by quad, failing on a dangling group or a character outside the
alphabet (the missing `OpenAIChat` code decodes the data-URI payload and the
spec requires decoding failures to be detectable). -/
def decodeB64Chars : List Char → Option (List Nat)
  | [] => some []
  | a :: b :: c :: d :: rest => do
    let va ← base64Val a
    let vb ← base64Val b
    if c = '=' ∧ d = '=' ∧ rest = [] then
      some [va * 4 + vb / 16]
    else do
      let vc ← base64Val c
      if d = '=' ∧ rest = [] then
        some [va * 4 + vb / 16, (vb % 16) * 16 + vc / 4]
      else do
        let vd ← base64Val d
        let tail ← decodeB64Chars rest
        some ([va * 4 + vb / 16, (vb % 16) * 16 + vc / 4, (vc % 4) * 64 + vd] ++ tail)
  | _ => none

/-- Modelled from the spec: base64-decode a string into bytes, or fail. -/
def base64Decode (s : String) : Option (List Nat) :=
  decodeB64Chars s.data

/-- Split a character list at the first occurrence of `marker`, returning the
parts before and after it; `none` when the marker does not occur. -/
def splitAtMarker (marker : List Char) : List Char → Option (List Char × List Char)
  | [] => none
  | c :: cs =>
    if marker.isPrefixOf (c :: cs) then some ([], (c :: cs).drop marker.length)
    else
      match splitAtMarker marker cs with
      | some (pre, post) => some (c :: pre, post)
      | none => none

/-- The inline data-URI scheme prefix `data:`. -/
def dataPrefix : List Char := "data:".data

/-- The base64 marker `;base64,` separating mime type from payload. -/
def b64Marker : List Char := ";base64,".data

/-- Modelled from the spec: recognize an inline data URI
`data:<mime-type>;base64,<payload>`, yielding the mime type and the raw
(undecoded) payload; any other string is not an inline data URI. -/
def parseDataUri (url : String) : Option (String × String) :=
  if dataPrefix.isPrefixOf url.data then
    match splitAtMarker b64Marker (url.data.drop dataPrefix.length) with
    | some (mime, payload) => some (⟨mime⟩, ⟨payload⟩)
    | none => none
  else none

/-- One part of a multi-part message content, after the `type` discriminator:
`text`/`output_text` parts carry text, `image_url` parts carry either a bare
string URL or an object with a `url` key. -/
inductive ContentPart where
  | text : String → ContentPart
  | output_text : String → ContentPart
  | image_url_str : String → ContentPart
  | image_url_obj : String → ContentPart

/-- An extracted image: either decoded inline bytes (`mime_type`/`content`) or
a remote reference (`url`). -/
structure ImageArtifact where
  url : Option String
  mime_type : Option String
  content : Option (List Nat)

/-- Raw message content: a plain string or a sequence of typed parts. -/
inductive RawContent where
  | str : String → RawContent
  | parts : List ContentPart → RawContent

/-- Modelled from the spec: the artifact produced by one `image_url` part —
a bare-string `image_url` is a remote URL; an object `url` matching the inline
data-URI pattern is decoded (`none`, i.e. silently dropped, when the base64
payload fails to decode); any other `url` is a remote URL.  Text parts produce
no artifact. -/
def imageFromPart : ContentPart → Option ImageArtifact
  | ContentPart.text _ => none
  | ContentPart.output_text _ => none
  | ContentPart.image_url_str url => some ⟨some url, none, none⟩
  | ContentPart.image_url_obj url =>
    match parseDataUri url with
    | some (mime, payload) =>
      match base64Decode payload with
      | some bytes => some ⟨none, some mime, some bytes⟩
      | none => none
    | none => some ⟨some url, none, none⟩

/-- Modelled from the spec: fold one part into the accumulated
(content, images) pair — text parts concatenate their text, image parts append
their artifact when one is produced. -/
def extractStep (acc : String × List ImageArtifact) (p : ContentPart) :
    String × List ImageArtifact :=
  match p with
  | ContentPart.text s => (acc.1 ++ s, acc.2)
  | ContentPart.output_text s => (acc.1 ++ s, acc.2)
  | _ =>
    match imageFromPart p with
    | some art => (acc.1, acc.2 ++ [art])
    | none => acc

/-- Modelled from the spec: content and image extraction — a plain string is
returned unchanged with no images; a part sequence is folded in order. -/
def extractContent : RawContent → String × List ImageArtifact
  | RawContent.str s => (s, [])
  | RawContent.parts ps => ps.foldl extractStep ("", [])

/-- Modelled from the spec: `OpenAIChat._parse_provider_response` content
handling — extract content and inline images from the message content, convert
the legacy `model_extra.images` entries the same way and append them after, and
expose the images only when at least one was produced. -/
def parse_provider_response (content : RawContent)
    (extra_images : Option (List ContentPart)) : String × Option (List ImageArtifact) :=
  let ex := extractContent content
  let legacy :=
    match extra_images with
    | some es => es.filterMap imageFromPart
    | none => []
  let all := ex.2 ++ legacy
  (ex.1, if all.isEmpty then none else some all)

end Agno

/-! ## Supporting lemmas -/

namespace Agno

theorem dget_dset_self (d : Dict) (k : String) (v : Val) :
    dget (dset d k v) k = some v := by
  induction d with
  | nil => simp [dget, dset]
  | cons hd tl ih =>
    by_cases h : hd.1 = k
    · simp [dget, dset, h]
    · simp [dget, dset, h, ih]

theorem dget_dset_ne (d : Dict) (k k₂ : String) (v : Val) (hne : k₂ ≠ k) :
    dget (dset d k v) k₂ = dget d k₂ := by
  induction d with
  | nil => simp [dget, dset, Ne.symm hne]
  | cons hd tl ih =>
    by_cases h : hd.1 = k
    · simp [dget, dset, h, Ne.symm hne]
    · by_cases h₂ : hd.1 = k₂ <;> simp [dget, dset, h, h₂, ih, hne]

theorem dget_dset (d : Dict) (k k₂ : String) (v : Val) :
    dget (dset d k v) k₂ = if k = k₂ then some v else dget d k₂ := by
  by_cases h : k = k₂
  · subst h
    simp [dget_dset_self]
  · simp [h, dget_dset_ne d k k₂ v (Ne.symm h)]

theorem empty_append_str (s : String) : "" ++ s = s := by
  apply String.ext
  simp [String.data_append]

theorem isPrefixOf_append_self (l₁ l₂ : List Char) : l₁.isPrefixOf (l₁ ++ l₂) = true := by
  rw [List.isPrefixOf_iff_prefix]
  exact List.prefix_append l₁ l₂

theorem splitAtMarker_append (c : Char) (m p mime : List Char) (hm : c ∉ mime) :
    splitAtMarker (c :: m) (mime ++ (c :: m) ++ p) = some (mime, p) := by
  induction mime with
  | nil =>
    rw [List.nil_append, List.cons_append, splitAtMarker]
    rw [← List.cons_append, isPrefixOf_append_self]
    simp [List.drop_left]
  | cons x xs ih =>
    have hcx : c ≠ x := fun h => hm (h ▸ List.mem_cons_self x xs)
    have hxs : c ∉ xs := fun h => hm (List.mem_cons_of_mem x h)
    rw [List.cons_append, List.cons_append, splitAtMarker]
    have hpre : (c :: m).isPrefixOf (x :: (xs ++ (c :: m) ++ p)) = false := by
      simp [List.isPrefixOf, hcx]
    simp only [hpre, Bool.false_eq_true, if_false]
    rw [ih hxs]

theorem parseDataUri_append (mime payload : String) (hm : ';' ∉ mime.data) :
    parseDataUri ("data:" ++ mime ++ ";base64," ++ payload) = some (mime, payload) := by
  have hdata : ("data:" ++ mime ++ ";base64," ++ payload).data =
      dataPrefix ++ (mime.data ++ b64Marker ++ payload.data) := by
    simp only [String.data_append, List.append_assoc]
    rfl
  rw [parseDataUri, hdata, isPrefixOf_append_self]
  simp only [if_true, List.drop_left]
  have hmarker : b64Marker = ';' :: "base64,".data := rfl
  rw [hmarker, splitAtMarker_append ';' "base64,".data payload.data mime.data hm]

theorem filterMap_length_of_isSome {α β : Type} (f : α → Option β) (l : List α)
    (h : ∀ e ∈ l, (f e).isSome) : (l.filterMap f).length = l.length := by
  induction l with
  | nil => rfl
  | cons x xs ih =>
    have hx := h x (List.mem_cons_self x xs)
    obtain ⟨y, hy⟩ := Option.isSome_iff_exists.mp hx
    rw [List.filterMap_cons, hy]
    simp [ih fun e he => h e (List.mem_cons_of_mem x he)]

/-! ## Claims about multi-part content extraction -/

/-- Claim C1: a multi-part content list with one text part `t` and one
`image_url` part whose object url is `data:<mime>;base64,<payload>` with a
decodable payload parses to content `t` and exactly one image artifact carrying
that mime type and the decoded bytes. -/
theorem multipart_inline_image_extracted (t mime payload : String) (bytes : List Nat)
    (hm : ';' ∉ mime.data)
    (hb : base64Decode payload = some bytes) :
    parse_provider_response
      (RawContent.parts [ContentPart.text t,
        ContentPart.image_url_obj ("data:" ++ mime ++ ";base64," ++ payload)]) none =
      (t, some [⟨none, some mime, some bytes⟩]) := by
  have hp := parseDataUri_append mime payload hm
  simp [parse_provider_response, extractContent, extractStep, imageFromPart, hp, hb,
    empty_append_str]

/-- Witness for C1: the test payload `data:image/png;base64,aGVsbG8=` decodes
to the bytes of `hello`. -/
theorem multipart_inline_image_extracted_witness :
    (';' ∉ "image/png".data ∧ base64Decode "aGVsbG8=" = some [104, 101, 108, 108, 111]) ∧
    parse_provider_response
      (RawContent.parts [ContentPart.text "here is your image",
        ContentPart.image_url_obj ("data:" ++ "image/png" ++ ";base64," ++ "aGVsbG8=")]) none =
      ("here is your image", some [⟨none, some "image/png", some [104, 101, 108, 108, 111]⟩]) :=
  ⟨⟨by decide, by decide⟩,
    multipart_inline_image_extracted "here is your image" "image/png" "aGVsbG8="
      [104, 101, 108, 108, 111] (by decide) (by decide)⟩

/-- Claim C2: a plain-string message content is returned exactly, with no
images — for every string, including strings containing `data:`. -/
theorem string_content_unchanged (s : String) :
    extractContent (RawContent.str s) = (s, []) ∧
    parse_provider_response (RawContent.str s) none = (s, none) :=
  ⟨rfl, rfl⟩

/-- Claim C3: an `image_url` part whose inline data-URI payload fails base64
decoding is silently dropped — extraction of the surrounding parts (and the
parsed response, for any legacy extra images) is exactly as if the part were
absent. -/
theorem invalid_data_uri_image_dropped (ps qs : List ContentPart)
    (extra : Option (List ContentPart)) (url mime payload : String)
    (hp : parseDataUri url = some (mime, payload))
    (hd : base64Decode payload = none) :
    extractContent (RawContent.parts (ps ++ ContentPart.image_url_obj url :: qs)) =
      extractContent (RawContent.parts (ps ++ qs)) ∧
    parse_provider_response (RawContent.parts (ps ++ ContentPart.image_url_obj url :: qs))
        extra =
      parse_provider_response (RawContent.parts (ps ++ qs)) extra := by
  have hstep : ∀ acc, extractStep acc (ContentPart.image_url_obj url) = acc := by
    intro acc
    simp [extractStep, imageFromPart, hp, hd]
  have hex : extractContent (RawContent.parts (ps ++ ContentPart.image_url_obj url :: qs)) =
      extractContent (RawContent.parts (ps ++ qs)) := by
    simp only [extractContent, List.foldl_append, List.foldl_cons, hstep]
  exact ⟨hex, by simp only [parse_provider_response, hex]⟩

/-- Witness for C3: the test input `data:image/png;base64,%%%` has an
undecodable payload, and dropping it leaves the text intact with no images. -/
theorem invalid_data_uri_image_dropped_witness :
    (parseDataUri "data:image/png;base64,%%%" = some ("image/png", "%%%") ∧
      base64Decode "%%%" = none) ∧
    parse_provider_response
      (RawContent.parts
        [ContentPart.text "bad image",
          ContentPart.image_url_obj "data:image/png;base64,%%%"]) none =
      parse_provider_response (RawContent.parts [ContentPart.text "bad image"]) none :=
  ⟨⟨by decide, by decide⟩,
    (invalid_data_uri_image_dropped [ContentPart.text "bad image"] [] none
      "data:image/png;base64,%%%" "image/png" "%%%" (by decide) (by decide)).2⟩

/-- Claim C4: with multi-part content yielding `N` parsed images and a legacy
`model_extra.images` bag of `M` convertible entries, the merged image list is
the `N` parsed images in content order followed by the `M` legacy images in
their given order, of length `N + M`. -/
theorem multipart_merges_with_extra_images (ps es : List ContentPart)
    (h : ∀ e ∈ es, (imageFromPart e).isSome) :
    ((parse_provider_response (RawContent.parts ps) (some es)).2).getD [] =
      (extractContent (RawContent.parts ps)).2 ++ es.filterMap imageFromPart ∧
    (((parse_provider_response (RawContent.parts ps) (some es)).2).getD []).length =
      (extractContent (RawContent.parts ps)).2.length + es.length := by
  have hmerge : ((parse_provider_response (RawContent.parts ps) (some es)).2).getD [] =
      (extractContent (RawContent.parts ps)).2 ++ es.filterMap imageFromPart := by
    by_cases he :
        ((extractContent (RawContent.parts ps)).2 ++ es.filterMap imageFromPart).isEmpty
    · simp only [parse_provider_response, he, if_true, Option.getD_none]
      exact (List.isEmpty_iff.mp he).symm
    · simp only [parse_provider_response, he, Bool.false_eq_true, if_false, Option.getD_some]
  refine ⟨hmerge, ?_⟩
  rw [hmerge, List.length_append, filterMap_length_of_isSome imageFromPart es h]

/-- Witness for C4: one parsed inline image plus one legacy remote image merge
into a two-element list, parsed image first. -/
theorem multipart_merges_with_extra_images_witness :
    (∀ e ∈ [ContentPart.image_url_obj "https://example.com/image.png"],
      (imageFromPart e).isSome) ∧
    ((parse_provider_response
        (RawContent.parts [ContentPart.text "two images",
          ContentPart.image_url_obj "data:image/png;base64,aGVsbG8="])
        (some [ContentPart.image_url_obj "https://example.com/image.png"])).2).getD [] =
      (extractContent (RawContent.parts [ContentPart.text "two images",
        ContentPart.image_url_obj "data:image/png;base64,aGVsbG8="])).2 ++
        [ContentPart.image_url_obj "https://example.com/image.png"].filterMap imageFromPart :=
  ⟨by decide,
    (multipart_merges_with_extra_images
      [ContentPart.text "two images",
        ContentPart.image_url_obj "data:image/png;base64,aGVsbG8="]
      [ContentPart.image_url_obj "https://example.com/image.png"] (by decide)).1⟩

/-- Claim C10: an `image_url` part whose URL is not an inline data URI yields
an artifact with only the `url` field populated, both for the bare-string form
and for the object form. -/
theorem remote_url_image_artifact (url : String) (h : parseDataUri url = none) :
    imageFromPart (ContentPart.image_url_str url) = some ⟨some url, none, none⟩ ∧
    imageFromPart (ContentPart.image_url_obj url) = some ⟨some url, none, none⟩ := by
  refine ⟨rfl, ?_⟩
  simp [imageFromPart, h]

/-- Witness for C10: the test URL `https://example.com/generated.png` is not a
data URI and both part forms yield a url-only artifact. -/
theorem remote_url_image_artifact_witness :
    parseDataUri "https://example.com/generated.png" = none ∧
    imageFromPart (ContentPart.image_url_obj "https://example.com/generated.png") =
      some ⟨some "https://example.com/generated.png", none, none⟩ :=
  ⟨by decide,
    (remote_url_image_artifact "https://example.com/generated.png" (by decide)).2⟩

/-! ## Claims about the OpenRouter request builder and metadata lifting -/

/-- Claim C5: with a non-empty fallback list, `get_request_params` sets
`extra_body.models` to that list, preserves all other `extra_body` entries and
all other top-level keys, and creates `extra_body` when absent; with an absent
or empty fallback list the base parameters are returned unchanged. -/
theorem fallback_models_injection (base : Dict) (models : Option (List String))
    (hwf : extra_body_ok base = true) :
    ((models = none ∨ models = some []) → get_request_params models base = some base) ∧
    (∀ ms, models = some ms → ms ≠ [] →
      get_request_params models base =
        some (dset base "extra_body"
          (Val.vdict (dset (extra_body_entries base) "models"
            (Val.vlist (ms.map Val.vstr))))) ∧
      dget (dset (extra_body_entries base) "models" (Val.vlist (ms.map Val.vstr)))
          "models" = some (Val.vlist (ms.map Val.vstr)) ∧
      (∀ k, k ≠ "models" →
        dget (dset (extra_body_entries base) "models" (Val.vlist (ms.map Val.vstr))) k =
          dget (extra_body_entries base) k) ∧
      (∀ k, k ≠ "extra_body" →
        dget (dset base "extra_body"
          (Val.vdict (dset (extra_body_entries base) "models"
            (Val.vlist (ms.map Val.vstr))))) k = dget base k)) := by
  constructor
  · rintro (rfl | rfl) <;> simp [get_request_params]
  · rintro ms rfl hne
    have hms : ms.isEmpty = false := by
      cases ms with
      | nil => exact absurd rfl hne
      | cons a as => rfl
    refine ⟨?_, dget_dset_self _ _ _, fun k hk => dget_dset_ne _ _ _ _ hk,
      fun k hk => dget_dset_ne _ _ _ _ hk⟩
    rw [get_request_params]
    simp only [hms, Bool.false_eq_true, if_false, List.isEmpty_eq_false]
    cases hd : dget base "extra_body" with
    | none => simp [extra_body_entries, hd, hne]
    | some v =>
      rw [extra_body_ok, hd] at hwf
      cases v with
      | vdict es =>
        by_cases ht : truthy (Val.vdict es) = true
        · simp [extra_body_entries, hd, ht, hne]
        · have hes : es = [] := by
            simp [truthy, List.isEmpty_iff] at ht
            exact ht
          subst hes
          simp [extra_body_entries, hd, hne]
      | vnull => simp [extra_body_entries, hd, truthy, hne]
      | vstr s =>
        have : truthy (Val.vstr s) = false := by
          cases h : truthy (Val.vstr s)
          · rfl
          · simp [h] at hwf
        simp [extra_body_entries, hd, this, hne]
      | vint n =>
        have : truthy (Val.vint n) = false := by
          cases h : truthy (Val.vint n)
          · rfl
          · simp [h] at hwf
        simp [extra_body_entries, hd, this, hne]
      | vlist xs =>
        have : truthy (Val.vlist xs) = false := by
          cases h : truthy (Val.vlist xs)
          · rfl
          · simp [h] at hwf
        simp [extra_body_entries, hd, this, hne]

/-- Witness for C5: fallback models `["a", "b"]` merge into an existing
`extra_body` that already carries an unrelated `transforms` entry. -/
theorem fallback_models_injection_witness :
    extra_body_ok [("temperature", Val.vint 1),
      ("extra_body", Val.vdict [("transforms", Val.vstr "middle-out")])] = true ∧
    get_request_params (some ["a", "b"])
      [("temperature", Val.vint 1),
        ("extra_body", Val.vdict [("transforms", Val.vstr "middle-out")])] =
      some (dset [("temperature", Val.vint 1),
        ("extra_body", Val.vdict [("transforms", Val.vstr "middle-out")])] "extra_body"
        (Val.vdict (dset (extra_body_entries [("temperature", Val.vint 1),
          ("extra_body", Val.vdict [("transforms", Val.vstr "middle-out")])]) "models"
          (Val.vlist (["a", "b"].map Val.vstr))))) :=
  ⟨rfl,
    ((fallback_models_injection
      [("temperature", Val.vint 1),
        ("extra_body", Val.vdict [("transforms", Val.vstr "middle-out")])]
      (some ["a", "b"]) rfl).2 ["a", "b"] rfl (by simp)).1⟩

theorem apply_provider_data (mr : ModelResponse) (r : RawResponse) (ic : Bool) :
    (apply_openrouter_metadata mr r ic).provider_data =
      some (set_choice_fields
        (if (get_usage_metadata r.usage).isEmpty then
          set_basic_fields ((mr.provider_data).getD []) r
        else
          dset (set_basic_fields ((mr.provider_data).getD []) r) "usage"
            (Val.vdict (get_usage_metadata r.usage))) r ic) := by
  cases mr with
  | mk pd ru => cases pd <;> rfl

theorem set_basic_model (pd : Dict) (r : RawResponse) :
    dget (set_basic_fields pd r) "model" =
      if truthy r.model then some r.model else dget pd "model" := by
  cases hp : dget (get_model_extra r.model_extra) "provider" <;>
    by_cases h1 : truthy r.model = true <;>
    by_cases h2 : truthy r.created = true <;>
    by_cases h3 : truthy r.object = true <;>
    simp [set_basic_fields, hp, h1, h2, h3, dget_dset]

theorem set_basic_created (pd : Dict) (r : RawResponse) :
    dget (set_basic_fields pd r) "created" =
      if truthy r.created then some r.created else dget pd "created" := by
  cases hp : dget (get_model_extra r.model_extra) "provider" <;>
    by_cases h1 : truthy r.model = true <;>
    by_cases h2 : truthy r.created = true <;>
    by_cases h3 : truthy r.object = true <;>
    simp [set_basic_fields, hp, h1, h2, h3, dget_dset]

theorem set_basic_object (pd : Dict) (r : RawResponse) :
    dget (set_basic_fields pd r) "object" =
      if truthy r.object then some r.object else dget pd "object" := by
  cases hp : dget (get_model_extra r.model_extra) "provider" <;>
    by_cases h1 : truthy r.model = true <;>
    by_cases h2 : truthy r.created = true <;>
    by_cases h3 : truthy r.object = true <;>
    simp [set_basic_fields, hp, h1, h2, h3, dget_dset]

theorem set_basic_provider (pd : Dict) (r : RawResponse) :
    dget (set_basic_fields pd r) "provider" =
      match dget (get_model_extra r.model_extra) "provider" with
      | some v => some v
      | none => dget pd "provider" := by
  cases hp : dget (get_model_extra r.model_extra) "provider" <;>
    by_cases h1 : truthy r.model = true <;>
    by_cases h2 : truthy r.created = true <;>
    by_cases h3 : truthy r.object = true <;>
    simp [set_basic_fields, hp, h1, h2, h3, dget_dset]

theorem set_basic_ne (pd : Dict) (r : RawResponse) (k : String)
    (h1 : k ≠ "model") (h2 : k ≠ "created") (h3 : k ≠ "object") (h4 : k ≠ "provider") :
    dget (set_basic_fields pd r) k = dget pd k := by
  cases hp : dget (get_model_extra r.model_extra) "provider" <;>
    by_cases hb1 : truthy r.model = true <;>
    by_cases hb2 : truthy r.created = true <;>
    by_cases hb3 : truthy r.object = true <;>
    simp [set_basic_fields, hp, hb1, hb2, hb3, dget_dset,
      Ne.symm h1, Ne.symm h2, Ne.symm h3, Ne.symm h4]

theorem set_choice_ne (pd : Dict) (r : RawResponse) (ic : Bool) (k : String)
    (h1 : k ≠ "choices") (h2 : k ≠ "finish_reason") (h3 : k ≠ "native_finish_reason") :
    dget (set_choice_fields pd r ic) k = dget pd k := by
  rw [set_choice_fields.eq_def]
  cases r.choices with
  | nil => rfl
  | cons c₀ rest =>
    cases ic with
    | false => simp
    | true =>
      by_cases hfr : (if truthy c₀.finish_reason then c₀.finish_reason
        else pyGet (get_model_extra c₀.model_extra) "finish_reason").isNull = true <;>
      by_cases hnfr :
          (pyGet (get_model_extra c₀.model_extra) "native_finish_reason").isNull = true <;>
      simp [hfr, hnfr, dget_dset, Ne.symm h1, Ne.symm h2, Ne.symm h3]

theorem set_choice_finish_reason (pd : Dict) (r : RawResponse) (c₀ : RawChoice)
    (rest : List RawChoice) (hc : r.choices = c₀ :: rest) :
    dget (set_choice_fields pd r true) "finish_reason" =
      (if (if truthy c₀.finish_reason then c₀.finish_reason
          else pyGet (get_model_extra c₀.model_extra) "finish_reason").isNull then
        dget pd "finish_reason"
      else
        some (if truthy c₀.finish_reason then c₀.finish_reason
          else pyGet (get_model_extra c₀.model_extra) "finish_reason")) ∧
    dget (set_choice_fields pd r true) "native_finish_reason" =
      (if (pyGet (get_model_extra c₀.model_extra) "native_finish_reason").isNull then
        dget pd "native_finish_reason"
      else some (pyGet (get_model_extra c₀.model_extra) "native_finish_reason")) := by
  rw [set_choice_fields.eq_def, hc]
  by_cases hfr : (if truthy c₀.finish_reason then c₀.finish_reason
    else pyGet (get_model_extra c₀.model_extra) "finish_reason").isNull = true <;>
  by_cases hnfr :
      (pyGet (get_model_extra c₀.model_extra) "native_finish_reason").isNull = true <;>
  simp [hfr, hnfr, dget_dset]

/-- Claim C6: metadata lifting overwrites the usage cost with the merged usage
data's `total_cost` exactly when the response carries a usage substructure and
`total_cost` resolves to a non-`None` value; otherwise the usage substructure
is left unchanged. -/
theorem total_cost_overwrite (mr : ModelResponse) (r : RawResponse) (ic : Bool) :
    (apply_openrouter_metadata mr r ic).response_usage =
      match mr.response_usage with
      | none => none
      | some u =>
        let tc := pyGet (get_usage_metadata r.usage) "total_cost"
        some { u with cost := if tc.isNull then u.cost else tc } := by
  have happly : (apply_openrouter_metadata mr r ic).response_usage =
      resolve_cost mr.response_usage (get_usage_metadata r.usage) := rfl
  rw [happly, resolve_cost.eq_def]
  cases hmr : mr.response_usage with
  | none =>
    by_cases he : (get_usage_metadata r.usage).isEmpty = true <;> simp [he]
  | some u =>
    by_cases he : (get_usage_metadata r.usage).isEmpty = true
    · have hnil : get_usage_metadata r.usage = [] := List.isEmpty_iff.mp he
      simp [he, hnil, pyGet, dget, Val.isNull]
    · simp only [he, Bool.false_eq_true, if_false]
      by_cases hn : (pyGet (get_usage_metadata r.usage) "total_cost").isNull = true
      · simp [hn]
      · simp [hn]

/-- Claim C7: the usage and choice coercions are total and two-tiered — the
typed conversion when it succeeds, else the generic coercion, else the empty
mapping — with the value's extra bag merged on top of the result, and a
missing usage yields the empty mapping. -/
theorem usage_choice_coercion_total (u : RawUsage) (c : RawChoice) :
    get_usage_metadata none = [] ∧
    get_usage_metadata (some u) =
      pyUpdate
        (match u.dump with
         | some d => d
         | none =>
           match u.asDict with
           | some d => d
           | none => [])
        (get_model_extra u.model_extra) ∧
    get_choice_metadata c =
      pyUpdate
        (match c.dump with
         | some d => d
         | none =>
           match c.asDict with
           | some d => d
           | none => [])
        (get_model_extra c.model_extra) := by
  refine ⟨rfl, ?_, ?_⟩
  · rw [get_usage_metadata]
    by_cases he : (get_model_extra u.model_extra).isEmpty = true
    · rw [List.isEmpty_iff.mp he]
      simp [pyUpdate]
    · simp [he]
  · rw [get_choice_metadata]
    by_cases he : (get_model_extra c.model_extra).isEmpty = true
    · rw [List.isEmpty_iff.mp he]
      simp [pyUpdate]
    · simp [he]

/-- Counterexample to claim C8 as stated: a response whose `model` attribute is
the empty string — present and non-null — is nevertheless not copied into
`provider_data`, because the code gates each copy on Python truthiness. -/
theorem basic_metadata_nonnull_counterexample :
    (Val.vstr "").isNull = false ∧
    dget (((apply_openrouter_metadata ⟨none, none⟩
        ⟨Val.vstr "", Val.vnull, Val.vnull, none, none, []⟩ true).provider_data).getD [])
      "model" = none :=
  ⟨rfl, rfl⟩

/-- Claim C8 (amended): metadata lifting copies `model`, `created` and `object`
into `provider_data` exactly when each is truthy (non-null and non-falsy) on
the raw response, and copies `provider` exactly when the key is present in the
response's top-level extra bag; otherwise each key keeps its prior value. -/
theorem basic_metadata_copied (mr : ModelResponse) (r : RawResponse) (ic : Bool) :
    dget (((apply_openrouter_metadata mr r ic).provider_data).getD []) "model" =
      (if truthy r.model then some r.model
       else dget ((mr.provider_data).getD []) "model") ∧
    dget (((apply_openrouter_metadata mr r ic).provider_data).getD []) "created" =
      (if truthy r.created then some r.created
       else dget ((mr.provider_data).getD []) "created") ∧
    dget (((apply_openrouter_metadata mr r ic).provider_data).getD []) "object" =
      (if truthy r.object then some r.object
       else dget ((mr.provider_data).getD []) "object") ∧
    dget (((apply_openrouter_metadata mr r ic).provider_data).getD []) "provider" =
      (match dget (get_model_extra r.model_extra) "provider" with
       | some v => some v
       | none => dget ((mr.provider_data).getD []) "provider") := by
  rw [apply_provider_data mr r ic]
  simp only [Option.getD_some]
  refine ⟨?_, ?_, ?_, ?_⟩ <;>
    rw [set_choice_ne _ _ _ _ (by decide) (by decide) (by decide)] <;>
    by_cases hu : (get_usage_metadata r.usage).isEmpty = true <;>
    simp [hu, dget_dset, set_basic_model, set_basic_created, set_basic_object,
      set_basic_provider]

/-- Counterexample to claim C9 as stated: a first choice whose typed
`finish_reason` is the empty string — non-null — is not preferred; the code
uses Python `or`, so the extra-bag value `"stop"` wins. -/
theorem finish_reason_nonnull_counterexample :
    (Val.vstr "").isNull = false ∧
    dget (((apply_openrouter_metadata ⟨none, none⟩
        ⟨Val.vnull, Val.vnull, Val.vnull, none, none,
          [⟨some [], none, some [("finish_reason", Val.vstr "stop")], Val.vstr ""⟩]⟩
        true).provider_data).getD []) "finish_reason" = some (Val.vstr "stop") ∧
    Val.vstr "stop" ≠ Val.vstr "" := by
  refine ⟨rfl, rfl, by simp⟩

/-- Claim C9 (amended): with `include_choices` true and at least one choice,
`finish_reason` in `provider_data` is the first choice's typed `finish_reason`
when that is truthy, otherwise the first choice's extra-bag `finish_reason`;
`native_finish_reason` comes from the extra bag only; each key is set exactly
when its resolved value is not `None`, and keeps its prior value otherwise. -/
theorem finish_reason_lifting (mr : ModelResponse) (r : RawResponse) (c₀ : RawChoice)
    (rest : List RawChoice) (hc : r.choices = c₀ :: rest) :
    dget (((apply_openrouter_metadata mr r true).provider_data).getD []) "finish_reason" =
      (if (if truthy c₀.finish_reason then c₀.finish_reason
          else pyGet (get_model_extra c₀.model_extra) "finish_reason").isNull then
        dget ((mr.provider_data).getD []) "finish_reason"
      else
        some (if truthy c₀.finish_reason then c₀.finish_reason
          else pyGet (get_model_extra c₀.model_extra) "finish_reason")) ∧
    dget (((apply_openrouter_metadata mr r true).provider_data).getD [])
        "native_finish_reason" =
      (if (pyGet (get_model_extra c₀.model_extra) "native_finish_reason").isNull then
        dget ((mr.provider_data).getD []) "native_finish_reason"
      else some (pyGet (get_model_extra c₀.model_extra) "native_finish_reason")) := by
  have hmid : ∀ k, k ≠ "model" → k ≠ "created" → k ≠ "object" → k ≠ "provider" →
      k ≠ "usage" →
      dget (if (get_usage_metadata r.usage).isEmpty then
          set_basic_fields ((mr.provider_data).getD []) r
        else
          dset (set_basic_fields ((mr.provider_data).getD []) r) "usage"
            (Val.vdict (get_usage_metadata r.usage))) k =
        dget ((mr.provider_data).getD []) k := by
    intro k h1 h2 h3 h4 h5
    by_cases hu : (get_usage_metadata r.usage).isEmpty = true <;>
      simp [hu, dget_dset, Ne.symm h5, set_basic_ne _ _ _ h1 h2 h3 h4]
  rw [apply_provider_data mr r true]
  simp only [Option.getD_some]
  obtain ⟨hfr, hnfr⟩ := set_choice_finish_reason
    (if (get_usage_metadata r.usage).isEmpty then
      set_basic_fields ((mr.provider_data).getD []) r
    else
      dset (set_basic_fields ((mr.provider_data).getD []) r) "usage"
        (Val.vdict (get_usage_metadata r.usage))) r c₀ rest hc
  rw [hfr, hnfr,
    hmid "finish_reason" (by decide) (by decide) (by decide) (by decide) (by decide),
    hmid "native_finish_reason" (by decide) (by decide) (by decide) (by decide) (by decide)]
  exact ⟨rfl, rfl⟩

/-- Witness for the amended C9: a choice with truthy typed finish reason
`"length"` and an extra-bag finish reason `"stop"` resolves to `"length"`. -/
theorem finish_reason_lifting_witness :
    (RawResponse.mk Val.vnull Val.vnull Val.vnull none none
        [⟨some [], none, some [("finish_reason", Val.vstr "stop")],
          Val.vstr "length"⟩]).choices =
      RawChoice.mk (some []) none [("finish_reason", Val.vstr "stop")]
        (Val.vstr "length") :: [] ∧
    dget (((apply_openrouter_metadata ⟨none, none⟩
        (RawResponse.mk Val.vnull Val.vnull Val.vnull none none
          [⟨some [], none, some [("finish_reason", Val.vstr "stop")],
            Val.vstr "length"⟩]) true).provider_data).getD [])
      "finish_reason" = some (Val.vstr "length") := by
  refine ⟨rfl, ?_⟩
  rw [(finish_reason_lifting ⟨none, none⟩
    (RawResponse.mk Val.vnull Val.vnull Val.vnull none none
      [⟨some [], none, some [("finish_reason", Val.vstr "stop")], Val.vstr "length"⟩])
    (RawChoice.mk (some []) none
      (some [("finish_reason", Val.vstr "stop")]) (Val.vstr "length")) [] rfl).1]
  rfl

end Agno
